import Mathlib

/-!
Verification development for the node favicon service (src/server.js).

The JavaScript source is shallowly embedded: the per request join state
(returned, expected, htmlLoaded, favicons) becomes an explicit state record
with a step function over arrival events, byte buffers become lists of
bytes, the network becomes an oracle from URL to optional response, and the
unbounded redirect recursion of getFavicon is made total with explicit fuel.
-/

/-- Raw image bytes (a Buffer in the source). -/
abbrev Payload := List Nat

/-- An icon candidate emitted by parseFaviconURL: a URL plus the optional
msapplication TileColor background. -/
structure IconCandidate where
  url : String
  bgcolor : Option String := none
  deriving Repr, DecidableEq

/-- A fetched favicon as stored in the favicons list of one request: the
candidate together with the downloaded bytes (faviconObj.data). -/
structure Favicon where
  url : String
  bgcolor : Option String
  data : Payload
  deriving Repr, DecidableEq

/-- fixupUrl from src/server.js: a value starting with // gets the protocol
string prefixed, a value starting with a single / gets the root origin
prefixed, anything else passes through unchanged. The JS indexing url[0] and
url[1] is modeled with optional lookups on the character data, so the out of
range lookup on a short string behaves like undefined. -/
def fixupUrl (url root protocol : String) : String :=
  if url.data[0]? = some '/' then
    if url.data[1]? = some '/' then protocol ++ url else root ++ url
  else url

/-- parseFaviconURL from src/server.js with the regex extraction abstracted:
hrefs stands for the ordered href values of the link elements whose rel
attribute contains the substring icon (document order), and tile for the
optional msapplication TileImage content together with the optional
msapplication TileColor content. Emission follows the source: one candidate
per link href in order, then at most one tile candidate carrying the
color. -/
def parseFaviconURL (hrefs : List String) (tile : Option (String × Option String))
    (root protocol : String) : List IconCandidate :=
  let icons := hrefs.map (fun h => { url := fixupUrl h root protocol : IconCandidate })
  match tile with
  | some (tileURL, tileColor) =>
    icons ++ [{ url := fixupUrl tileURL root protocol, bgcolor := tileColor }]
  | none => icons

/-- A transport response: status code, the location header, the body. -/
structure HttpResponse where
  statusCode : Nat
  location : Option String
  body : Payload
  deriving Repr, DecidableEq

/-- Outcome of getFavicon for one candidate. crash marks the 301/302 branch
with a missing location header, where the source recurses on undefined;
outOfFuel marks exhaustion of the fuel that makes the unbounded redirect
recursion total. -/
inductive FetchOutcome where
  | payload (bytes : Payload)
  | noPayload
  | crash
  | outOfFuel
  deriving Repr, DecidableEq

/-- The url.substring(0,5).toLowerCase() + url.substring(5) step at the top
of getFavicon. -/
def lowerFirst5 (s : String) : String :=
  ⟨(s.data.take 5).map Char.toLower ++ s.data.drop 5⟩

/-- getFavicon from src/server.js over a network oracle net (none models a
connection error or the idle timeout abort, both of which reach the error
callback). Only status 200 collects the body; only statuses 301 and 302
follow the location header, which is used verbatim as the next URL; every
other status reports back with no payload. -/
def getFavicon (net : String → Option HttpResponse) : Nat → String → FetchOutcome
  | 0, _ => FetchOutcome.outOfFuel
  | fuel + 1, url =>
    match net (lowerFirst5 url) with
    | none => FetchOutcome.noPayload
    | some res =>
      if res.statusCode = 200 then FetchOutcome.payload res.body
      else if res.statusCode = 301 ∨ res.statusCode = 302 then
        match res.location with
        | some loc => getFavicon net fuel loc
        | none => FetchOutcome.crash
      else FetchOutcome.noPayload

/-- The fetch semantics exactly as the specification words them, kept for
comparison with getFavicon: any 2xx collects the body, any 3xx with a
location re-issues the fetch against the location resolved the same way
CandidateURLResolver resolves hrefs (fixupUrl), and anything else yields no
payload. -/
def getFaviconSpec (net : String → Option HttpResponse) (root protocol : String) :
    Nat → String → FetchOutcome
  | 0, _ => FetchOutcome.outOfFuel
  | fuel + 1, url =>
    match net url with
    | none => FetchOutcome.noPayload
    | some res =>
      if 200 ≤ res.statusCode ∧ res.statusCode ≤ 299 then FetchOutcome.payload res.body
      else if 300 ≤ res.statusCode ∧ res.statusCode ≤ 399 then
        match res.location with
        | some loc => getFaviconSpec net root protocol fuel (fixupUrl loc root protocol)
        | none => FetchOutcome.noPayload
      else FetchOutcome.noPayload

/-- A concrete network for the comparison of the two fetch semantics: the
root favicon answers 303 with an absolute location, the touch icon answers
206 with a body, the precomposed icon answers 302 with a relative
location. -/
def netC4 (u : String) : Option HttpResponse :=
  if u = "http://h/favicon.ico" then
    some { statusCode := 303, location := some "http://h/a.png", body := [1] }
  else if u = "http://h/a.png" then
    some { statusCode := 200, location := none, body := [1] }
  else if u = "http://h/apple-touch-icon.png" then
    some { statusCode := 206, location := none, body := [2] }
  else if u = "http://h/apple-touch-icon-precomposed.png" then
    some { statusCode := 302, location := some "/b.png", body := [] }
  else if u = "http://h/b.png" then
    some { statusCode := 200, location := none, body := [3] }
  else none

/-- A network where every URL answers 301 redirecting to itself. -/
def netLoop (u : String) : Option HttpResponse :=
  some { statusCode := 301, location := some u, body := [] }

/-- The per request join state closed over by done in src/server.js.
completions counts how many times the completion branch of done ran, and
firstComplete records the pair (returned, expected) at the first completion;
both are observers of the control flow, not source variables. The stored
counter of the source is omitted since it always equals the length of
favicons. -/
structure JobState where
  returned : Nat
  expected : Nat
  htmlLoaded : Bool
  favicons : List Favicon
  completions : Nat
  firstComplete : Option (Nat × Nat)
  deriving Repr, DecidableEq

/-- The deduplicating push inside done: the arriving favicon is compared
byte for byte against every stored favicon and appended only when no exact
match exists. -/
def dedupStep (favicons : List Favicon) (nf : Favicon) : List Favicon :=
  if favicons.any (fun f => f.data == nf.data) then favicons else favicons ++ [nf]

/-- The first half of done: increment returned, and when a favicon arrived
push it through the dedup check. -/
def doneCore (s : JobState) (nf? : Option Favicon) : JobState :=
  { s with
    returned := s.returned + 1,
    favicons :=
      match nf? with
      | none => s.favicons
      | some nf => dedupStep s.favicons nf }

/-- The completion test at the end of done: when returned has reached
expected and htmlLoaded is set, the completion block runs (counted in
completions, first occurrence snapshotted in firstComplete). -/
def checkComplete (s : JobState) : JobState :=
  if s.expected ≤ s.returned ∧ s.htmlLoaded = true then
    { s with
      completions := s.completions + 1,
      firstComplete :=
        match s.firstComplete with
        | some p => some p
        | none => some (s.returned, s.expected) }
  else s

/-- done from src/server.js. -/
def done (s : JobState) (nf? : Option Favicon) : JobState :=
  checkComplete (doneCore s nf?)

/-- The events that can hit one ResolutionJob: a candidate fetch completing
(with or without a payload), or the HTML branch resolving with the list of
discovered candidates, where the empty list covers both a failed HTML fetch
and HTML without icon candidates. -/
inductive JobEvent where
  | arrive (nf? : Option Favicon)
  | htmlDone (cands : List IconCandidate)
  deriving Repr, DecidableEq

/-- One scheduler step of the coordinator: an arrival runs done; the HTML
branch with discovered candidates grows expected before their fetches are
dispatched and sets htmlLoaded; with no candidates it sets htmlLoaded and
calls done with no favicon, exactly as the getHTML callback inside
retrieveAllFavicons does. -/
def step (s : JobState) : JobEvent → JobState
  | JobEvent.arrive nf? => done s nf?
  | JobEvent.htmlDone cands =>
    if 0 < cands.length then
      { s with expected := s.expected + cands.length, htmlLoaded := true }
    else done { s with htmlLoaded := true } none

/-- Initial join state: expected starts at 3 for the three well known
candidates, htmlLoaded starts false. -/
def initState : JobState :=
  { returned := 0, expected := 3, htmlLoaded := false, favicons := [],
    completions := 0, firstComplete := none }

/-- Run one request against an interleaving of events. -/
def runJob (events : List JobEvent) : JobState :=
  events.foldl step initState

/-- The payload carrying arrivals of a trace, in arrival order. -/
def arrivalsOf : List JobEvent → List Favicon
  | [] => []
  | JobEvent.arrive (some nf) :: rest => nf :: arrivalsOf rest
  | JobEvent.arrive none :: rest => arrivalsOf rest
  | JobEvent.htmlDone _ :: rest => arrivalsOf rest

/-- Keep the first arrival of each byte content, preserving arrival order. -/
def firstOccurrences : List Favicon → List Favicon
  | [] => []
  | f :: rest => f :: firstOccurrences (rest.filter (fun g => !(f.data == g.data)))
termination_by l => l.length
decreasing_by
  simp only [List.length_cons]
  exact Nat.lt_succ_of_le (List.length_filter_le _ _)

/-- The conversion join state of one completed request: converted counts the
imagemagick convert callbacks that reported back, cacheLookups counts the
serveFromCache re-lookups fired by the test converted == stored. -/
structure ConvertState where
  converted : Nat
  cacheLookups : Nat
  deriving Repr, DecidableEq

/-- The imagemagick convert callback inside convertFn in src/server.js:
converted is incremented whether or not err is set, and the test
converted == stored runs on every attempt. -/
def convertCallback (stored : Nat) (s : ConvertState) (_err : Bool) : ConvertState :=
  { converted := s.converted + 1,
    cacheLookups :=
      if s.converted + 1 = stored then s.cacheLookups + 1 else s.cacheLookups }

/-- All conversion callbacks of one request, in completion order; each entry
of results is the error flag of one conversion attempt. -/
def runConversions (stored : Nat) (results : List Bool) : ConvertState :=
  results.foldl (convertCallback stored) { converted := 0, cacheLookups := 0 }

/-- Result of the best fit scan of getBestFromCache: an exact width match
returns immediately, otherwise the tracked best is returned, or empty when
bestFit stayed null. -/
inductive FitResult where
  | exact (w : Int)
  | best (w : Int)
  | empty
  deriving Repr, DecidableEq

/-- The file scan loop of getBestFromCache inside serveFromCache in
src/server.js, over the widths embedded in the directory listing in listing
order; best and bfd mirror bestFit and bestFitDifference. The JS comparison
is: skip the entry when difference > bfd and bfd > 0, else replace the best
when difference > bfd. -/
def getBestFromCache (size : Int) : List Int → Option Int → Int → FitResult
  | [], some b, _ => FitResult.best b
  | [], none, _ => FitResult.empty
  | w :: rest, best, bfd =>
    if w = size then FitResult.exact w
    else
      if w - size > bfd ∧ bfd > 0 then getBestFromCache size rest best bfd
      else if w - size > bfd then getBestFromCache size rest (some w) (w - size)
      else getBestFromCache size rest best bfd

/-- getBestFromCache as initialized by the source: bestFit starts null and
bestFitDifference starts at -100000. -/
def serveFit (size : Int) (files : List Int) : FitResult :=
  getBestFromCache size files none (-100000)

/-- The selection rule exactly as the specification words it, kept for
comparison with getBestFromCache: the first entry seeds the best, and a
later entry replaces the best whenever its signed difference is strictly
greater than the current best difference, also when the current best
difference is positive. -/
def specBestRule (size : Int) : List Int → Option (Int × Int) → FitResult
  | [], some (b, _) => FitResult.best b
  | [], none => FitResult.empty
  | w :: rest, cur =>
    if w = size then FitResult.exact w
    else
      match cur with
      | none => specBestRule size rest (some (w, w - size))
      | some (b, d) =>
        if w - size > d then specBestRule size rest (some (w, w - size))
        else specBestRule size rest (some (b, d))

/-- What one serveFromCache call does: miss stands for invoking the miss
continuation cb (stat failure, staleness, or readdir failure), the other
constructors stand for answering out of the cache. -/
inductive CacheOutcome where
  | miss
  | exact (w : Int)
  | best (w : Int)
  | empty
  deriving Repr, DecidableEq

/-- The readdir plus scan part of serveFromCache; listing none models a
readdir error, on which cb is invoked. -/
def getBestOutcome (size : Int) (listing : Option (List Int)) : CacheOutcome :=
  match listing with
  | none => CacheOutcome.miss
  | some files =>
    match serveFit size files with
    | FitResult.exact w => CacheOutcome.exact w
    | FitResult.best w => CacheOutcome.best w
    | FitResult.empty => CacheOutcome.empty

/-- serveFromCache from src/server.js: with an expires bound the directory
mtime is checked first (a stat failure or mtime < expires invokes cb, a
miss), then the scan runs. statMtime none models a stat error. -/
def serveFromCache (size : Int) (expires : Option Int) (statMtime : Option Int)
    (listing : Option (List Int)) : CacheOutcome :=
  match expires with
  | some e =>
    match statMtime with
    | none => CacheOutcome.miss
    | some mtime =>
      if mtime < e then CacheOutcome.miss else getBestOutcome size listing
  | none => getBestOutcome size listing

/-- Observable effects of handling one request: which cache answer was
served, whether retrieveAllFavicons ran, and how many outbound fetches and
conversion invocations were issued. -/
structure RequestOutcome where
  served : Option CacheOutcome
  coordinatorInvoked : Bool
  fetchCalls : Nat
  conversionCalls : Nat
  deriving Repr, DecidableEq

/-- Number of HTML discovered candidates in a trace. -/
def discoveredCount : List JobEvent → Nat
  | [] => 0
  | JobEvent.htmlDone cands :: rest => cands.length + discoveredCount rest
  | JobEvent.arrive _ :: rest => discoveredCount rest

/-- retrieveAllFavicons: three well known fetches plus one fetch per HTML
discovered candidate; at completion one conversion per deduplicated payload
is dispatched. -/
def runResolution (events : List JobEvent) : RequestOutcome :=
  { served := none, coordinatorInvoked := true,
    fetchCalls := 3 + discoveredCount events,
    conversionCalls := (runJob events).favicons.length }

/-- The cache check dispatch of the request handler in src/server.js: a
missing cache directory goes straight to resolution; otherwise
serveFromCache runs with the TTL bound and only its miss continuation
reaches retrieveAllFavicons. -/
def handleRequest (size : Int) (dirExists : Bool) (expires : Int)
    (statMtime : Option Int) (listing : Option (List Int))
    (events : List JobEvent) : RequestOutcome :=
  if dirExists then
    match serveFromCache size (some expires) statMtime listing with
    | CacheOutcome.miss => runResolution events
    | CacheOutcome.exact w =>
      { served := some (CacheOutcome.exact w), coordinatorInvoked := false,
        fetchCalls := 0, conversionCalls := 0 }
    | CacheOutcome.best w =>
      { served := some (CacheOutcome.best w), coordinatorInvoked := false,
        fetchCalls := 0, conversionCalls := 0 }
    | CacheOutcome.empty =>
      { served := some CacheOutcome.empty, coordinatorInvoked := false,
        fetchCalls := 0, conversionCalls := 0 }
  else runResolution events

/-! Helper lemmas about the join state machine. -/

theorem checkComplete_favicons (s : JobState) : (checkComplete s).favicons = s.favicons := by
  unfold checkComplete; split <;> rfl

theorem checkComplete_returned (s : JobState) : (checkComplete s).returned = s.returned := by
  unfold checkComplete; split <;> rfl

theorem checkComplete_expected (s : JobState) : (checkComplete s).expected = s.expected := by
  unfold checkComplete; split <;> rfl

theorem done_favicons_none (s : JobState) : (done s none).favicons = s.favicons := by
  unfold done; rw [checkComplete_favicons]; rfl

theorem done_favicons_some (s : JobState) (nf : Favicon) :
    (done s (some nf)).favicons = dedupStep s.favicons nf := by
  unfold done; rw [checkComplete_favicons]; rfl

theorem done_returned (s : JobState) (nf? : Option Favicon) :
    (done s nf?).returned = s.returned + 1 := by
  unfold done; rw [checkComplete_returned]; rfl

theorem done_expected (s : JobState) (nf? : Option Favicon) :
    (done s nf?).expected = s.expected := by
  unfold done; rw [checkComplete_expected]; rfl

theorem step_expected_mono (s : JobState) (e : JobEvent) :
    s.expected ≤ (step s e).expected := by
  cases e with
  | arrive nf? =>
    show s.expected ≤ (done s nf?).expected
    rw [done_expected]
  | htmlDone cands =>
    show s.expected ≤ (if 0 < cands.length then
        { s with expected := s.expected + cands.length, htmlLoaded := true }
      else done { s with htmlLoaded := true } none).expected
    split
    · exact Nat.le_add_right _ _
    · rw [done_expected]

theorem dedupStep_pairwise {l : List Favicon} (nf : Favicon)
    (h : l.Pairwise (fun a b => a.data ≠ b.data)) :
    (dedupStep l nf).Pairwise (fun a b => a.data ≠ b.data) := by
  unfold dedupStep
  split
  · exact h
  · rename_i hany
    rw [List.pairwise_append]
    refine ⟨h, List.pairwise_singleton _ _, ?_⟩
    intro a ha b hb
    rw [List.mem_singleton] at hb
    subst hb
    intro had
    exact hany (List.any_eq_true.mpr ⟨a, ha, by simp [had]⟩)

theorem foldl_dedup_pairwise (l : List Favicon) :
    ∀ acc : List Favicon, acc.Pairwise (fun a b => a.data ≠ b.data) →
      (l.foldl dedupStep acc).Pairwise (fun a b => a.data ≠ b.data) := by
  induction l with
  | nil => intro acc h; exact h
  | cons f rest ih =>
    intro acc h
    exact ih (dedupStep acc f) (dedupStep_pairwise f h)

theorem foldl_step_favicons (events : List JobEvent) :
    ∀ s : JobState, (events.foldl step s).favicons
      = (arrivalsOf events).foldl dedupStep s.favicons := by
  induction events with
  | nil => intro s; rfl
  | cons e rest ih =>
    intro s
    cases e with
    | arrive nf? =>
      cases nf? with
      | none =>
        rw [List.foldl_cons, ih, show arrivalsOf (JobEvent.arrive none :: rest) = arrivalsOf rest from rfl]
        rw [show step s (JobEvent.arrive none) = done s none from rfl, done_favicons_none]
      | some nf =>
        rw [List.foldl_cons, ih,
          show arrivalsOf (JobEvent.arrive (some nf) :: rest) = nf :: arrivalsOf rest from rfl,
          List.foldl_cons]
        rw [show step s (JobEvent.arrive (some nf)) = done s (some nf) from rfl, done_favicons_some]
    | htmlDone cands =>
      rw [List.foldl_cons, ih,
        show arrivalsOf (JobEvent.htmlDone cands :: rest) = arrivalsOf rest from rfl]
      show ((arrivalsOf rest).foldl dedupStep (step s (JobEvent.htmlDone cands)).favicons) = _
      congr 1
      show (if 0 < cands.length then
          { s with expected := s.expected + cands.length, htmlLoaded := true }
        else done { s with htmlLoaded := true } none).favicons = s.favicons
      split
      · rfl
      · rw [done_favicons_none]

theorem foldl_dedup_firstOcc (l : List Favicon) :
    ∀ acc : List Favicon,
      l.foldl dedupStep acc
        = acc ++ firstOccurrences (l.filter (fun f => !(acc.any (fun g => g.data == f.data)))) := by
  induction l with
  | nil => intro acc; simp [firstOccurrences]
  | cons f rest ih =>
    intro acc
    by_cases h : acc.any (fun g => g.data == f.data) = true
    · have hded : dedupStep acc f = acc := by unfold dedupStep; rw [if_pos h]
      have hfil : (f :: rest).filter (fun x => !(acc.any (fun g => g.data == x.data)))
          = rest.filter (fun x => !(acc.any (fun g => g.data == x.data))) := by
        simp [List.filter_cons, h]
      rw [List.foldl_cons, hded, ih acc, hfil]
    · have hded : dedupStep acc f = acc ++ [f] := by unfold dedupStep; rw [if_neg h]
      have hfil : (f :: rest).filter (fun x => !(acc.any (fun g => g.data == x.data)))
          = f :: rest.filter (fun x => !(acc.any (fun g => g.data == x.data))) := by
        simp only [List.filter_cons]
        rw [if_pos (by simp [h])]
      have hpred : rest.filter (fun x => !((acc ++ [f]).any (fun g => g.data == x.data)))
          = (rest.filter (fun x => !(acc.any (fun g => g.data == x.data)))).filter
              (fun g => !(f.data == g.data)) := by
        rw [List.filter_filter]
        apply List.filter_congr
        intro x _
        simp only [List.any_append, List.any_cons, List.any_nil, Bool.or_false, Bool.not_or]
        rw [Bool.and_comm]
      rw [List.foldl_cons, hded, ih (acc ++ [f]), hfil, hpred]
      rw [firstOccurrences, List.append_assoc, List.singleton_append]

theorem runJob_favicons_firstOcc (events : List JobEvent) :
    (runJob events).favicons = firstOccurrences (arrivalsOf events) := by
  rw [runJob, foldl_step_favicons events initState, foldl_dedup_firstOcc]
  show [] ++ firstOccurrences ((arrivalsOf events).filter _) = _
  rw [List.nil_append]
  congr 1
  apply List.filter_eq_self.mpr
  intro a _
  rfl

theorem foldl_convert (stored : Nat) (results : List Bool) :
    ∀ s : ConvertState,
      (results.foldl (convertCallback stored) s).converted = s.converted + results.length
    ∧ (results.foldl (convertCallback stored) s).cacheLookups =
        s.cacheLookups +
          (if s.converted < stored ∧ stored ≤ s.converted + results.length then 1 else 0) := by
  induction results with
  | nil =>
    intro s
    refine ⟨by simp, ?_⟩
    simp only [List.foldl_nil, List.length_nil, Nat.add_zero]
    split
    · omega
    · omega
  | cons r rest ih =>
    intro s
    simp only [List.foldl_cons, List.length_cons]
    obtain ⟨h1, h2⟩ := ih (convertCallback stored s r)
    refine ⟨?_, ?_⟩
    · rw [h1]
      simp only [convertCallback]
      omega
    · rw [h2]
      simp only [convertCallback]
      split_ifs <;> omega

/-! Claim theorems. -/

/-- C1: the claim says the job notifies its owner (runs the completion
block) exactly once and that no later arrival runs the block a second time.
On the interleaving where the HTML branch resolves with no discovered
candidates before the three well known fetches return, the block runs
twice: the HTML branch calls done, which pushes returned past expected, so
the predicate returned >= expected && htmlLoaded is satisfied again at the
final arrival. -/
theorem C1_completion_block_runs_twice :
    (runJob [JobEvent.htmlDone [], JobEvent.arrive none, JobEvent.arrive none,
             JobEvent.arrive none]).completions = 2 := by decide

/-- C2: expected only ever grows along any step, but at the first completion
arrivedCount need not equal the final expectedCount: when the three well
known fetches return before the HTML branch fails, the first completion
fires with returned = 4 while expected = 3. -/
theorem C2_arrived_vs_expected_at_completion :
    (runJob [JobEvent.arrive none, JobEvent.arrive none, JobEvent.arrive none,
             JobEvent.htmlDone []]).firstComplete = some (4, 3)
  ∧ ∀ (s : JobState) (e : JobEvent), s.expected ≤ (step s e).expected :=
  ⟨by decide, step_expected_mono⟩

/-- C5: along every interleaving of events, the favicons list of the job
never holds two entries with byte identical payloads: every arriving
payload is compared against each stored payload and appended only when no
exact match exists. -/
theorem C5_unique_payloads (events : List JobEvent) :
    ((runJob events).favicons).Pairwise (fun a b => a.data ≠ b.data) := by
  rw [runJob, foldl_step_favicons events initState]
  exact foldl_dedup_pairwise _ _ (by simp [initState])

/-- C10: an arrival whose payload is byte identical to a stored one still
increments returned but leaves the favicons list completely unchanged, so
the earlier entry and its metadata survive and the later candidate object is
discarded; consequently over any trace the stored list is exactly the first
arrival of each byte content, in arrival order. -/
theorem C10_duplicate_arrival :
    (∀ (s : JobState) (nf : Favicon),
        s.favicons.any (fun f => f.data == nf.data) = true →
          (done s (some nf)).favicons = s.favicons ∧
          (done s (some nf)).returned = s.returned + 1)
  ∧ ∀ events : List JobEvent,
      (runJob events).favicons = firstOccurrences (arrivalsOf events) := by
  constructor
  · intro s nf h
    refine ⟨?_, done_returned s (some nf)⟩
    rw [done_favicons_some]
    unfold dedupStep
    rw [if_pos h]
  · exact runJob_favicons_firstOcc

/-- C10 witness: a duplicate arrival (same bytes, different url and color)
leaves the one stored favicon in place and bumps returned. -/
theorem C10_duplicate_arrival_witness :
    (done { returned := 3, expected := 3, htmlLoaded := false,
            favicons := [{ url := "a", bgcolor := none, data := [7, 8] }],
            completions := 0, firstComplete := none }
          (some { url := "b", bgcolor := some "red", data := [7, 8] })).favicons
        = [{ url := "a", bgcolor := none, data := [7, 8] }]
  ∧ (done { returned := 3, expected := 3, htmlLoaded := false,
            favicons := [{ url := "a", bgcolor := none, data := [7, 8] }],
            completions := 0, firstComplete := none }
          (some { url := "b", bgcolor := some "red", data := [7, 8] })).returned = 4 :=
  C10_duplicate_arrival.1 _ _ (by decide)

/-- C3 counterexample: at requested size 16 over the listing [32, 48] the
code keeps 32 (a first oversized best is never replaced), while the rule as
the claim words it replaces it with 48; the stated rule therefore does not
describe serveFromCache, and the choice over the widths 32 and 48 depends
on listing order. -/
theorem C3_rule_counterexample :
    serveFit 16 [32, 48] = FitResult.best 32
  ∧ specBestRule 16 [32, 48] none = FitResult.best 48
  ∧ FitResult.best 32 ≠ FitResult.best 48 := by decide

/-- C3 amended: an entry whose width equals the requested size returns
immediately; a later entry replaces the best only when its signed
difference is strictly greater AND the current best difference is not
positive, so once the best is oversized no later entry ever replaces it;
over the listing [32, 48] at size 16 the result is 32, over [48, 32] it is
48 (deterministic given the listing order). -/
theorem C3_best_fit_freezes_once_oversized :
    (∀ (size : Int) (files : List Int) (b : Option Int) (bfd : Int),
        getBestFromCache size (size :: files) b bfd = FitResult.exact size)
  ∧ (∀ (size : Int) (files : List Int) (b bfd : Int), 0 < bfd →
        (∀ w ∈ files, w ≠ size) →
        getBestFromCache size files (some b) bfd = FitResult.best b)
  ∧ serveFit 16 [32, 48] = FitResult.best 32
  ∧ serveFit 16 [48, 32] = FitResult.best 48 := by
  refine ⟨?_, ?_, by decide, by decide⟩
  · intro size files b bfd
    simp [getBestFromCache]
  · intro size files
    induction files with
    | nil => intro b bfd hpos hne; rfl
    | cons w rest ih =>
      intro b bfd hpos hne
      have hw : w ≠ size := hne w (List.mem_cons_self w rest)
      have hrest : ∀ x ∈ rest, x ≠ size := fun x hx => hne x (List.mem_cons_of_mem w hx)
      show getBestFromCache size (w :: rest) (some b) bfd = FitResult.best b
      simp only [getBestFromCache]
      rw [if_neg hw]
      by_cases hgt : w - size > bfd
      · rw [if_pos ⟨hgt, hpos⟩]
        exact ih b bfd hpos hrest
      · rw [if_neg (fun hc => hgt hc.1), if_neg hgt]
        exact ih b bfd hpos hrest

/-- C3 witness: with an oversized best of width 32 (difference 16) already
recorded, the remaining entry 48 does not replace it. -/
theorem C3_best_fit_freezes_witness :
    getBestFromCache 16 [48] (some 32) 16 = FitResult.best 32 :=
  C3_best_fit_freezes_once_oversized.2.1 16 [48] 32 16 (by decide) (by decide)

/-- C4 counterexample: against netC4 the code yields no payload for a 303
response (only 301 and 302 redirect), no payload for a 206 response (only
200 collects the body), and no payload for a 302 whose relative location
would need resolving, while the fetch semantics as the claim words them
produce a payload in all three cases. -/
theorem C4_fetch_counterexample :
    getFavicon netC4 9 "http://h/favicon.ico" = FetchOutcome.noPayload
  ∧ getFaviconSpec netC4 "http://h" "http:" 9 "http://h/favicon.ico" = FetchOutcome.payload [1]
  ∧ getFavicon netC4 9 "http://h/apple-touch-icon.png" = FetchOutcome.noPayload
  ∧ getFaviconSpec netC4 "http://h" "http:" 9 "http://h/apple-touch-icon.png"
      = FetchOutcome.payload [2]
  ∧ getFavicon netC4 9 "http://h/apple-touch-icon-precomposed.png" = FetchOutcome.noPayload
  ∧ getFaviconSpec netC4 "http://h" "http:" 9 "http://h/apple-touch-icon-precomposed.png"
      = FetchOutcome.payload [3] := by
  decide

/-- C4 amended: only a 200 response collects the full body; only a 301 or
302 follows the location header, and the location is used verbatim as the
next URL (not resolved against the root); a transport error or idle timeout
(net answering none) and any other status yield no payload without failing
the job; and the redirect chain is unbounded, so a cyclic redirect never
resolves for any amount of fuel. -/
theorem C4_fetch_semantics (net : String → Option HttpResponse) :
    (∀ (fuel : Nat) (u : String) (r : HttpResponse),
        net (lowerFirst5 u) = some r → r.statusCode = 200 →
        getFavicon net (fuel + 1) u = FetchOutcome.payload r.body)
  ∧ (∀ (fuel : Nat) (u : String), net (lowerFirst5 u) = none →
        getFavicon net (fuel + 1) u = FetchOutcome.noPayload)
  ∧ (∀ (fuel : Nat) (u : String) (r : HttpResponse),
        net (lowerFirst5 u) = some r →
        r.statusCode ≠ 200 → r.statusCode ≠ 301 → r.statusCode ≠ 302 →
        getFavicon net (fuel + 1) u = FetchOutcome.noPayload)
  ∧ (∀ (fuel : Nat) (u : String) (r : HttpResponse) (loc : String),
        net (lowerFirst5 u) = some r →
        (r.statusCode = 301 ∨ r.statusCode = 302) → r.location = some loc →
        getFavicon net (fuel + 1) u = getFavicon net fuel loc)
  ∧ (∀ (fuel : Nat) (u : String), getFavicon netLoop fuel u = FetchOutcome.outOfFuel) := by
  refine ⟨?_, ?_, ?_, ?_, ?_⟩
  · intro fuel u r h h200
    simp only [getFavicon, h]
    rw [if_pos h200]
  · intro fuel u h
    simp only [getFavicon, h]
  · intro fuel u r h h200 h301 h302
    simp only [getFavicon, h]
    rw [if_neg h200, if_neg (fun hc => hc.elim h301 h302)]
  · intro fuel u r loc h hs hloc
    simp only [getFavicon, h, hloc]
    rw [if_neg (by rcases hs with hc | hc <;> simp [hc]), if_pos hs]
  · intro fuel
    induction fuel with
    | zero => intro u; rfl
    | succ n ih =>
      intro u
      simp only [getFavicon, netLoop]
      exact ih (lowerFirst5 u)

/-- C4 witness: a direct 200 answer collects the body. -/
theorem C4_fetch_semantics_witness :
    getFavicon (fun _ => some { statusCode := 200, location := none, body := [9] }) 1 "http://x"
      = FetchOutcome.payload [9] :=
  (C4_fetch_semantics (fun _ => some { statusCode := 200, location := none, body := [9] })).1
    0 "http://x" { statusCode := 200, location := none, body := [9] } rfl rfl

/-- C6: over one completed request with n stored payloads, every conversion
callback increments converted exactly once whether or not the attempt
failed, and the serveFromCache re-lookup fires exactly when converted
reaches n: once over the full run of callbacks, never on a strictly shorter
prefix; failed conversions therefore never stall the join. -/
theorem C6_join_counts_attempts (n : Nat) (results : List Bool)
    (hlen : results.length = n) (hn : 1 ≤ n) :
    (runConversions n results).converted = n
  ∧ (runConversions n results).cacheLookups = 1
  ∧ ∀ pre : List Bool, pre.length < n → (runConversions n pre).cacheLookups = 0 := by
  obtain ⟨h1, h2⟩ := foldl_convert n results { converted := 0, cacheLookups := 0 }
  simp only [Nat.zero_add] at h1 h2
  refine ⟨?_, ?_, ?_⟩
  · rw [runConversions, h1, hlen]
  · rw [runConversions, h2, if_pos ⟨hn, by omega⟩]
  · intro pre hpre
    obtain ⟨_, hp2⟩ := foldl_convert n pre { converted := 0, cacheLookups := 0 }
    simp only [Nat.zero_add] at hp2
    rw [runConversions, hp2, if_neg (by omega)]

/-- C6 witness: two stored payloads, the first conversion fails and the
second succeeds; both callbacks count and the re-lookup fires once. -/
theorem C6_join_counts_attempts_witness :
    (runConversions 2 [true, false]).converted = 2
  ∧ (runConversions 2 [true, false]).cacheLookups = 1 :=
  ⟨(C6_join_counts_attempts 2 [true, false] rfl (by decide)).1,
   (C6_join_counts_attempts 2 [true, false] rfl (by decide)).2.1⟩

/-- C7: every discovered href and the tile image content are resolved by
fixupUrl: a value starting with // is prefixed with the protocol string, a
value starting with a single / is prefixed with the root origin, any other
value passes through unchanged; parseFaviconURL emits exactly the resolved
urls in order; and /static/icon.png against root http://example.com
resolves to http://example.com/static/icon.png. -/
theorem C7_href_resolution (url root protocol : String) :
    (∀ rest : List Char, url.data = '/' :: '/' :: rest →
        fixupUrl url root protocol = protocol ++ url)
  ∧ (∀ (c : Char) (rest : List Char), url.data = '/' :: c :: rest → c ≠ '/' →
        fixupUrl url root protocol = root ++ url)
  ∧ (url.data = ['/'] → fixupUrl url root protocol = root ++ url)
  ∧ (∀ (c : Char) (rest : List Char), url.data = c :: rest → c ≠ '/' →
        fixupUrl url root protocol = url)
  ∧ (url.data = [] → fixupUrl url root protocol = url)
  ∧ (∀ (hrefs : List String) (tileURL : String) (tileColor : Option String),
        (parseFaviconURL hrefs (some (tileURL, tileColor)) root protocol).map IconCandidate.url
          = hrefs.map (fun h => fixupUrl h root protocol) ++ [fixupUrl tileURL root protocol])
  ∧ fixupUrl "/static/icon.png" "http://example.com" "http:"
      = "http://example.com/static/icon.png" := by
  refine ⟨?_, ?_, ?_, ?_, ?_, ?_, by decide⟩
  · intro rest h
    simp [fixupUrl, h]
  · intro c rest h hc
    simp [fixupUrl, h, hc]
  · intro h
    simp [fixupUrl, h]
  · intro c rest h hc
    simp [fixupUrl, h, hc]
  · intro h
    simp [fixupUrl, h]
  · intro hrefs tileURL tileColor
    simp [parseFaviconURL]

/-- C7 witness: a protocol relative href gets the protocol string. -/
theorem C7_href_resolution_witness :
    fixupUrl "//cdn.example.com/i.png" "http://example.com" "http:"
      = "http:" ++ "//cdn.example.com/i.png" :=
  (C7_href_resolution "//cdn.example.com/i.png" "http://example.com" "http:").1
    "cdn.example.com/i.png".data (by decide)

/-- C8: with a TTL bound in force, a cache directory whose modification time
is older than the expiry instant reports a miss (the miss continuation cb is
invoked) regardless of the directory contents: no cached file is selected,
not even an exact fit. -/
theorem C8_stale_directory_misses (size e mtime : Int) (listing : Option (List Int))
    (h : mtime < e) :
    serveFromCache size (some e) (some mtime) listing = CacheOutcome.miss := by
  simp [serveFromCache, h]

/-- C8 witness: a stale directory holding an exact fit still misses. -/
theorem C8_stale_directory_misses_witness :
    serveFromCache 16 (some 100) (some 50) (some [16, 32]) = CacheOutcome.miss :=
  C8_stale_directory_misses 16 100 50 (some [16, 32]) (by decide)

/-- C9: when the cache directory exists and serveFromCache answers with a
file (an exact or a best fit under the TTL bound), the request performs
zero outbound fetches and zero conversion invocations and never reaches
retrieveAllFavicons, for every possible resolution trace. -/
theorem C9_fresh_hit_no_network (size expires mtime : Int) (listing : Option (List Int))
    (events : List JobEvent) (w : Int)
    (h : serveFromCache size (some expires) (some mtime) listing = CacheOutcome.exact w ∨
         serveFromCache size (some expires) (some mtime) listing = CacheOutcome.best w) :
    (handleRequest size true expires (some mtime) listing events).coordinatorInvoked = false
  ∧ (handleRequest size true expires (some mtime) listing events).fetchCalls = 0
  ∧ (handleRequest size true expires (some mtime) listing events).conversionCalls = 0 := by
  rcases h with h | h <;> simp [handleRequest, h]

/-- C9 witness: a fresh exact fit serves from cache with no coordinator. -/
theorem C9_fresh_hit_no_network_witness :
    (handleRequest 16 true 100 (some 200) (some [16]) []).coordinatorInvoked = false
  ∧ (handleRequest 16 true 100 (some 200) (some [16]) []).fetchCalls = 0
  ∧ (handleRequest 16 true 100 (some 200) (some [16]) []).conversionCalls = 0 :=
  C9_fresh_hit_no_network 16 100 200 (some [16]) [] 16 (Or.inl (by decide))
